import Mathlib

/-!
Verification of the resticprofile profile-resolution and flag-derivation
engine, together with the shell command builder.

The source of truth is the repository code: `config.go` (profile lookup and
inheritance driver), `shell/command.go` (shell invocation builder), and the
profile test suite. The profile/flag derivation code itself (profile.go,
flag.go) is not part of the provided sources — only its tests and the spec
describe it — so those parts are modelled from the specification text and
checked against the expectations recorded in the test suite.
-/

namespace Resticprofile

/-! ## Flag values

Modelled from the spec: the profile/flag code (profile.go, flag.go) is not in
the provided sources. §3 "OtherFlags value — any scalar or homogeneous list of
scalars (boolean, string, integer, float)" and §9: "model a flag value as a
closed sum type {Bool, String, Integer, Float, StringList}". Floats are
modelled as exact rationals (configuration floats are decimal literals). -/

inductive ScalarValue where
  | bool (b : Bool)
  | str (s : String)
  | int (i : Int)
  | float (q : ℚ)
deriving DecidableEq, Repr

inductive FlagValue where
  | scalar (v : ScalarValue)
  | list (vs : List ScalarValue)
deriving DecidableEq, Repr

/-- Decimal rendering of an integer (Go `strconv` decimal form). -/
def intDecimal (i : Int) : String :=
  if i < 0 then "-" ++ Nat.repr i.natAbs else Nat.repr i.natAbs

/-- Smallest exponent `k ≤ 60` with `d ∣ 10^k`, if any. -/
def decExponent (d : Nat) : Option Nat :=
  (List.range 61).find? (fun k => 10 ^ k % d = 0)

/-- Strip trailing zero digits from a fractional digit list. -/
def stripTrailingZeros (s : List Char) : List Char :=
  (s.reverse.dropWhile (fun c => c = '0')).reverse

/-- Shortest round-trip decimal form of a rational: for a decimal-representable
rational this is the minimal decimal string denoting it exactly (Go
`strconv.FormatFloat(_, 'f', -1, 64)` on the corresponding literal). -/
def ratDecimal (q : ℚ) : String :=
  let sign := if q < 0 then "-" else ""
  let n := q.num.natAbs
  let d := q.den
  match decExponent d with
  | none => sign ++ Nat.repr n ++ "/" ++ Nat.repr d
  | some k =>
    let scaled := n * 10 ^ k / d
    let intPart := scaled / 10 ^ k
    let fracNat := scaled % 10 ^ k
    let fracDigits := stripTrailingZeros
      (List.replicate (k - (Nat.repr fracNat).length) '0' ++ (Nat.repr fracNat).data)
    if fracDigits.isEmpty then sign ++ Nat.repr intPart
    else sign ++ Nat.repr intPart ++ "." ++ String.mk fracDigits

/-- String form of one list element when a list value is emitted. -/
def scalarString : ScalarValue → String
  | .bool b => if b then "true" else "false"
  | .str s => s
  | .int i => intDecimal i
  | .float q => ratDecimal q

/-- Modelled from the spec: flag suppression/formatting table of §4.2.
Returns `none` when the flag is suppressed, `some values` when the flag is
emitted with the given value list (empty list = presence-only flag). -/
def argValueToStrings : FlagValue → Option (List String)
  | .scalar (.bool true) => some []
  | .scalar (.bool false) => none
  | .scalar (.str s) => if s = "" then none else some [s]
  | .scalar (.int i) => if i = 0 then none else some [intDecimal i]
  | .scalar (.float q) => if q = 0 then none else some [ratDecimal q]
  | .list [] => none
  | .list vs => some (vs.map scalarString)

/-! ## Ordered flag sets -/

/-- An ordered flag set: a sequence of (name, value-list) pairs (§3). -/
abbrev Flags := List (String × List String)

/-- Insert or overwrite one key in an ordered flag set (last writer wins). -/
def setFlag : Flags → String → List String → Flags
  | [], k, v => [(k, v)]
  | (k0, v0) :: rest, k, v =>
    if k0 = k then (k0, v) :: rest else (k0, v0) :: setFlag rest k v

/-- `ToMap` of the shell args: deduplicate keys, last writer wins. -/
def toMap (fl : Flags) : Flags :=
  fl.foldl (fun m e => setFlag m e.1 e.2) []

/-- Lookup of a flag name in a flag set (first matching entry). -/
def findIn : Flags → String → Option (List String)
  | [], _ => none
  | (k0, v) :: rest, k => if k0 = k then some v else findIn rest k

/-- Final value associated with a flag name (`ToMap` then lookup). -/
def getFlag (fl : Flags) (k : String) : Option (List String) :=
  findIn (toMap fl) k

/-- Modelled from the spec: emission of an untyped key/value map as flags,
in map order, applying the suppression table (§4.2). The name follows the
helper `addArgsFromMap` used by the test suite. -/
def addArgsFromMap (fl : List (String × FlagValue)) : Flags :=
  fl.filterMap (fun e => (argValueToStrings e.2).map (fun vs => (e.1, vs)))

/-! ## Shell command builder

Embedding of `shell/command.go`. `exec.LookPath` is modelled as succeeding
and returning the shell executable it looked up (`sh` / `cmd.exe`); the
error branch for a missing shell is not modelled. -/

namespace Shell

/-- Go `strings.Trim(s, string(c))`: remove all leading and trailing
occurrences of the character `c`. -/
def trimChar (s : String) (c : Char) : String :=
  String.mk (((s.data.dropWhile (fun x => x = c)).reverse.dropWhile
    (fun x => x = c)).reverse)

/-- Go `strings.HasPrefix(s, string(c))` for the one-character cutsets used
by `removeQuotes`. -/
def startsWithChar (s : String) (c : Char) : Bool :=
  [c].isPrefixOf s.data

/-- Go `strings.HasSuffix(s, string(c))` for one-character cutsets. -/
def endsWithChar (s : String) (c : Char) : Bool :=
  [c].isSuffixOf s.data

/-- One element of `removeQuotes` (command.go lines 128-135): strip
single/double quotes when the whole string is quoted. -/
def removeQuotesOne (a : String) : String :=
  if startsWithChar a '"' && endsWithChar a '"' then trimChar a '"'
  else if startsWithChar a '\x27' && endsWithChar a '\x27' then trimChar a '\x27'
  else a

/-- `removeQuotes` (command.go): applied to each argument in order. -/
def removeQuotes (args : List String) : List String :=
  args.map removeQuotesOne

/-- The operating systems distinguished by `runtime.GOOS` in command.go. -/
inductive GOOS where
  | windows
  | unix
deriving DecidableEq, Repr

/-- `getSignalPropagationShellScript` (command.go lines 142-153): wraps the
command in a trap/wait script passed to `sh -c`. -/
def getSignalPropagationShellScript (shell command : String) (args : List String) :
    String × List String :=
  (shell,
    ["-c",
      "\ntrap \x27kill -TERM $PID\x27 TERM INT\n" ++ command ++ " " ++
      String.intercalate " " args ++
      " &\nPID=$!\nwait $PID\ntrap - TERM INT\nwait $PID\nEXIT_STATUS=$?\n"])

/-- `getShellCommand` (command.go lines 94-117): on windows every argument is
passed individually to `cmd.exe /C` after `removeQuotes`; otherwise the
command and all arguments are flattened into a single space-joined string
passed to `sh -c` (unless the signal-propagation script is requested). -/
def getShellCommand (os : GOOS) (command : String) (args : List String)
    (propagateSignalScript : Bool) : String × List String :=
  match os with
  | .windows => ("cmd.exe", "/C" :: command :: removeQuotes args)
  | .unix =>
    if propagateSignalScript then
      getSignalPropagationShellScript "sh" command args
    else
      ("sh", ["-c", String.intercalate " " (command :: args)])

end Shell

/-! ## Profile resolution and inheritance

The driver (`Config.getProfile` in config.go) is embedded from the source;
the merge of untyped keys during unmarshalling (profile.go / the viper
decode layer) is not in the provided sources and is modelled from the spec,
§4.1 "Generic/list-append merge rule": a plain key assignment replaces the
inherited value, `"key..."` appends to the accumulated list for `key`,
`"...key"` prepends to it, accumulation proceeding ancestor-first. -/

namespace Config

/-- How one raw key assignment combines with the accumulated value. -/
inductive KeyOp where
  | set
  | append
  | prepend
deriving DecidableEq, Repr

/-- The three-dot marker. -/
def dots : List Char := ['.', '.', '.']

/-- Modelled from the spec: classify a raw key into its merge operation and
its base key. A key starting with `...` prepends; a key ending with `...`
appends; anything else is a plain replacement. -/
def classifyKey (k : String) : KeyOp × String :=
  if dots.isPrefixOf k.data then (.prepend, String.mk (k.data.drop 3))
  else if dots.isSuffixOf k.data then
    (.append, String.mk ((k.data.reverse.drop 3).reverse))
  else (.set, k)

/-- The scalars of a flag value, viewed as a list. -/
def valueList : FlagValue → List ScalarValue
  | .scalar v => [v]
  | .list vs => vs

/-- Lookup in an ordered key/value map. -/
def lookupVal : List (String × FlagValue) → String → Option FlagValue
  | [], _ => none
  | (k0, v) :: rest, k => if k0 = k then some v else lookupVal rest k

/-- Insert or overwrite in an ordered key/value map. -/
def setVal : List (String × FlagValue) → String → FlagValue →
    List (String × FlagValue)
  | [], k, v => [(k, v)]
  | (k0, v0) :: rest, k, v =>
    if k0 = k then (k0, v) :: rest else (k0, v0) :: setVal rest k v

/-- Modelled from the spec: apply one raw assignment to the accumulated
untyped flags (§4.1 merge rule). -/
def applyAssign (acc : List (String × FlagValue)) (kv : String × FlagValue) :
    List (String × FlagValue) :=
  match classifyKey kv.1 with
  | (.set, k) => setVal acc k kv.2
  | (.append, k) =>
    let old := match lookupVal acc k with
      | some v => valueList v
      | none => []
    setVal acc k (.list (old ++ valueList kv.2))
  | (.prepend, k) =>
    let old := match lookupVal acc k with
      | some v => valueList v
      | none => []
    setVal acc k (.list (valueList kv.2 ++ old))

/-- Modelled from the spec: re-apply a profile body's own assignments, in
declaration order, on top of the accumulated (inherited) flags. This models
viper's unmarshalling of the child's own fields onto the resolved parent. -/
def mergeAssigns (acc : List (String × FlagValue))
    (entries : List (String × FlagValue)) : List (String × FlagValue) :=
  entries.foldl applyAssign acc

/-- A profile body as it appears in the raw document: its `inherit` key and
its untyped key assignments in declaration order. -/
structure RawProfile where
  inherit : Option String
  entries : List (String × FlagValue)
deriving DecidableEq, Repr

/-- The raw document: named profile bodies (after the loader has applied the
v1/v2 profile-path layout, §6). -/
abbrev Doc := List (String × RawProfile)

/-- Lookup of a profile body in the raw document (viper `IsSet`/`Get` on the
profile path). -/
def lookupRaw : Doc → String → Option RawProfile
  | [], _ => none
  | (k0, v) :: rest, k => if k0 = k then some v else lookupRaw rest k

/-- A resolved profile: the requested name plus its merged untyped flags. -/
structure Profile where
  name : String
  otherFlags : List (String × FlagValue)
deriving DecidableEq, Repr

/-- Embedding of `Config.getProfile` (config.go lines 1794-1835): a missing
key returns a nil profile with no error; a present key is unmarshalled, and
when it declares `inherit` the parent is resolved first and the child's own
fields are re-applied on top, after which `profile.Name` is reset to the
requested key. The Go code recurses without cycle detection; the embedding
is fueled, returning a structural error when fuel runs out. -/
def getProfile : Nat → Doc → String → Except String (Option Profile)
  | 0, _, _ => .error "inheritance chain too deep"
  | fuel + 1, doc, key =>
    match lookupRaw doc key with
    | none => .ok none
    | some raw =>
      match raw.inherit with
      | none => .ok (some { name := key, otherFlags := mergeAssigns [] raw.entries })
      | some parentKey =>
        match getProfile fuel doc parentKey with
        | .error e => .error e
        | .ok none => .error ("error in profile \x27" ++ key ++
            "\x27: parent profile \x27" ++ parentKey ++ "\x27 not found")
        | .ok (some parent) =>
          .ok (some { name := key,
                      otherFlags := mergeAssigns parent.otherFlags raw.entries })

/-- The distinguishable conditions a caller of profile resolution can branch
on. Modelled from the spec: §7 "NotFound (profile key absent — not
exceptional, callers branch on it)"; in config.go the condition is the
nil-profile/nil-error return of `getProfile`, which the test suite's
(missing) helper surfaces as the `ErrNotFound` sentinel. -/
inductive ResolveError where
  | notFound
  | structural (msg : String)
deriving DecidableEq, Repr

/-- Modelled from the spec: `Resolve(documentRoot, profileName, ...)` (§4.1),
surfacing the absent-key condition as `NotFound`. -/
def resolveProfile (doc : Doc) (key : String) : Except ResolveError Profile :=
  match getProfile (doc.length + 1) doc key with
  | .error e => .error (.structural e)
  | .ok none => .error .notFound
  | .ok (some p) => .ok p

/-- Common flags of a resolved profile restricted to its untyped keys
(modelled from the spec, §4.2). -/
def getCommonFlags (p : Profile) : Flags :=
  addArgsFromMap p.otherFlags

/-- The loaded configuration instance shared between repeated resolutions:
the raw document is the only state resolution reads. -/
structure LoadedConfig where
  doc : Doc
deriving DecidableEq, Repr

/-- The flag set derived from one resolution outcome. -/
def flagsOf : Except String (Option Profile) → Option Flags
  | .ok (some p) => some (getCommonFlags p)
  | _ => none

/-- One resolution of `key` against the shared configuration instance:
returns the outcome, its derived flag set, and the configuration state the
next resolution will see. -/
def resolveOnce (c : LoadedConfig) (key : String) :
    (Except String (Option Profile) × Option Flags) × LoadedConfig :=
  ((getProfile (c.doc.length + 1) c.doc key,
    flagsOf (getProfile (c.doc.length + 1) c.doc key)), c)

/-- `n` successive resolutions of the same profile on the same configuration
instance, each one running against the state left by the previous one. -/
def resolveRepeat : Nat → LoadedConfig → String →
    List (Except String (Option Profile) × Option Flags)
  | 0, _, _ => []
  | n + 1, c, key =>
    ((resolveOnce c key).1) :: resolveRepeat n (resolveOnce c key).2 key

end Config

/-! ## Host override

Modelled from the spec: §4.2 host special case. The profile/flag code is not
in the provided sources; the model keeps, for each host-supporting section,
its untyped flags (among which the `host` key lives), mirroring how the test
suite observes the flag through `GetCommandFlags` / the section's
`OtherFlags`. -/

namespace Host

/-- A section carrying untyped flags. -/
structure HostSection where
  otherFlags : List (String × FlagValue)
deriving DecidableEq, Repr

/-- Profile projection for the host behaviour: profile-level untyped flags
plus the per-command sections. -/
structure Profile where
  otherFlags : List (String × FlagValue)
  sections : List (String × HostSection)
deriving DecidableEq, Repr

/-- The fixed set of sections that support the `host` option (§4.2). -/
def hostSupportedSections : List String :=
  ["backup", "forget", "snapshots", "mount", "retention", "copy", "dump",
   "find", "ls", "restore", "stats", "tag"]

/-- Modelled from the spec: `host = true` marks "use runtime host";
`SetHost(name)` resolves it to the given name, leaving literal host values
untouched. -/
def setHostInFlags (h : String) (fl : List (String × FlagValue)) :
    List (String × FlagValue) :=
  fl.map (fun e =>
    if e.1 = "host" ∧ e.2 = .scalar (.bool true) then (e.1, .scalar (.str h))
    else e)

/-- `SetHost` on the profile: applied to every host-supporting section. -/
def SetHost (p : Profile) (h : String) : Profile :=
  { p with
    sections := p.sections.map (fun s =>
      cond (hostSupportedSections.contains s.1)
        (s.1, ⟨setHostInFlags h s.2.otherFlags⟩) s) }

/-- Section lookup. -/
def lookupSection : List (String × HostSection) → String → Option HostSection
  | [], _ => none
  | (k0, v) :: rest, k => if k0 = k then some v else lookupSection rest k

/-- Modelled from the spec: `GetCommandFlags` merges the profile-level flags
first, then the command's own flags, command-level values winning on
collision (§4.2). -/
def GetCommandFlags (p : Profile) (command : String) : Flags :=
  addArgsFromMap p.otherFlags ++
    (match lookupSection p.sections command with
     | none => []
     | some s => addArgsFromMap s.otherFlags)

end Host

/-! ## Retention path/tag derivation

Modelled from the spec: §4.2 "Retention path/tag derivation". The model
keeps the backup section's resolved source list (after glob expansion) and
tag list, the retention section's `path`/`tag` values and remaining untyped
flags, the document schema version and the root path set by `SetRootPath`. -/

namespace Retention

/-- The state of the retention `path`/`tag` option in the document: absent,
an explicit boolean, or a list of literal values. -/
inductive RetentionValue where
  | unset
  | boolean (b : Bool)
  | literals (l : List String)
deriving DecidableEq, Repr

/-- The retention section: `path`, `tag` and its remaining untyped flags. -/
structure RetentionSection where
  path : RetentionValue
  tag : RetentionValue
  otherFlags : List (String × FlagValue)
deriving DecidableEq, Repr

/-- Profile projection for retention derivation. `backupSource` is the
backup section's resolved source list (after glob expansion) and
`backupTags` its tag list. -/
structure Profile where
  version : Nat
  rootPath : String
  backupSource : List String
  backupTags : List String
  retention : RetentionSection
deriving DecidableEq, Repr

/-- Modelled from the spec: root-path normalization of a literal retention
path — already-absolute values are kept, `.` resolves to the root path,
other relative values are joined to it (§4.1 `SetRootPath`). -/
def normalizePath (root p : String) : String :=
  if p = "." then root
  else if Shell.startsWithChar p '/' then p
  else root ++ "/" ++ p

/-- Modelled from the spec: `GetRetentionFlags` (§4.2). `path` unset or
`true` copies the backup source list; `false` suppresses the flag; a literal
list is root-path-normalized and used verbatim. `tag` follows the same
policy sourced from the backup tag list, except that an unset `tag` is only
copied under schema version 2+. Empty lists are suppressed (§4.2 table). -/
def GetRetentionFlags (p : Profile) : Flags :=
  let pathFlags : Flags :=
    match p.retention.path with
    | .unset => if p.backupSource = [] then [] else [("path", p.backupSource)]
    | .boolean true => if p.backupSource = [] then [] else [("path", p.backupSource)]
    | .boolean false => []
    | .literals l =>
      if l = [] then [] else [("path", l.map (normalizePath p.rootPath))]
  let tagFlags : Flags :=
    match p.retention.tag with
    | .unset =>
      if 2 ≤ p.version then
        (if p.backupTags = [] then [] else [("tag", p.backupTags)])
      else []
    | .boolean true => if p.backupTags = [] then [] else [("tag", p.backupTags)]
    | .boolean false => []
    | .literals l => if l = [] then [] else [("tag", l)]
  addArgsFromMap p.retention.otherFlags ++ pathFlags ++ tagFlags

end Retention

/-! ## Version-gated naming for Init and Copy

Modelled from the spec (§4.2 "Version-gated naming") and the expected flag
maps of `TestGetInitStructFields` / `TestGetCopyStructFields`: the profile
carries an effective tool version (an unparsable/empty version behaves as
below 14); below version 14 the secondary repository's fields emit under
legacy suffixed names, at or above 14 under `from-`-prefixed names. For the
`copy` command the roles attached to the gated set flip with the version:
below 14 the gated (suffixed) names carry the copy destination, at or above
14 the gated (`from-`) names carry the owning profile (the source) while the
destination moves to the plain names. `getInitFlags` always initializes the
destination (plain names) with the source under the gated names and adds a
presence-only `copy-chunker-params` flag. -/

namespace InitCopy

/-- The `init` section struct fields relevant to version gating. -/
structure InitSection where
  fromKeyHint : String
  fromRepository : String
  fromRepositoryFile : String
  fromPasswordFile : String
  fromPasswordCommand : String
  otherFlags : List (String × FlagValue)
deriving DecidableEq, Repr

/-- The `copy` section struct fields relevant to version gating (the copy
destination repository). -/
structure CopySection where
  keyHint : String
  repository : String
  repositoryFile : String
  passwordFile : String
  passwordCommand : String
  otherFlags : List (String × FlagValue)
deriving DecidableEq, Repr

/-- Profile projection: effective tool version (0 when unknown), the
profile's own repository/credential fields, untyped flags, and the optional
`copy` section. -/
structure Profile where
  toolVersion : Nat
  keyHint : String
  repository : String
  repositoryFile : String
  passwordFile : String
  passwordCommand : String
  otherFlags : List (String × FlagValue)
  copy : Option CopySection
deriving DecidableEq, Repr

/-- Emit one string-valued flag, suppressed when empty (§4.2 table). -/
def strFlag (name value : String) : Flags :=
  if value = "" then [] else [(name, [value])]

/-- The five repository/credential fields under their legacy suffixed names
(tool version below 14). -/
def legacyRepoFlags (keyHint repo repoFile pwFile pwCommand : String) : Flags :=
  strFlag "key-hint2" keyHint ++ strFlag "repo2" repo ++
  strFlag "repository-file2" repoFile ++ strFlag "password-file2" pwFile ++
  strFlag "password-command2" pwCommand

/-- The five repository/credential fields under their `from-`-prefixed names
(tool version 14 and above). -/
def fromRepoFlags (keyHint repo repoFile pwFile pwCommand : String) : Flags :=
  strFlag "from-key-hint" keyHint ++ strFlag "from-repo" repo ++
  strFlag "from-repository-file" repoFile ++ strFlag "from-password-file" pwFile ++
  strFlag "from-password-command" pwCommand

/-- The five repository/credential fields under their plain names. -/
def plainRepoFlags (keyHint repo repoFile pwFile pwCommand : String) : Flags :=
  strFlag "key-hint" keyHint ++ strFlag "repo" repo ++
  strFlag "repository-file" repoFile ++ strFlag "password-file" pwFile ++
  strFlag "password-command" pwCommand

/-- `InitSection.getCommandFlags`: the init section's secondary-repository
fields under the version-gated names, merged over the profile's and the
section's untyped flags (`TestGetInitStructFields`). -/
def InitSection.getCommandFlags (s : InitSection) (p : Profile) : Flags :=
  addArgsFromMap p.otherFlags ++ addArgsFromMap s.otherFlags ++
    (if p.toolVersion < 14 then
      legacyRepoFlags s.fromKeyHint s.fromRepository s.fromRepositoryFile
        s.fromPasswordFile s.fromPasswordCommand
    else
      fromRepoFlags s.fromKeyHint s.fromRepository s.fromRepositoryFile
        s.fromPasswordFile s.fromPasswordCommand)

/-- `CopySection.getCommandFlags` (`TestGetCopyStructFields`, copy): below
14 the plain names carry the source (owning profile) and the suffixed names
the destination (the section); at or above 14 the `from-` names carry the
source and the plain names the destination. -/
def CopySection.getCommandFlags (s : CopySection) (p : Profile) : Flags :=
  addArgsFromMap p.otherFlags ++ addArgsFromMap s.otherFlags ++
    (if p.toolVersion < 14 then
      plainRepoFlags p.keyHint p.repository p.repositoryFile p.passwordFile
        p.passwordCommand ++
      legacyRepoFlags s.keyHint s.repository s.repositoryFile s.passwordFile
        s.passwordCommand
    else
      fromRepoFlags p.keyHint p.repository p.repositoryFile p.passwordFile
        p.passwordCommand ++
      plainRepoFlags s.keyHint s.repository s.repositoryFile s.passwordFile
        s.passwordCommand)

/-- `CopySection.getInitFlags` (`TestGetCopyStructFields`, init): the
destination (the section) under the plain names, the source (the owning
profile) under the version-gated names, plus a presence-only
`copy-chunker-params` flag. -/
def CopySection.getInitFlags (s : CopySection) (p : Profile) : Flags :=
  [("copy-chunker-params", [])] ++
  addArgsFromMap s.otherFlags ++ addArgsFromMap p.otherFlags ++
    (if p.toolVersion < 14 then
      legacyRepoFlags p.keyHint p.repository p.repositoryFile p.passwordFile
        p.passwordCommand
    else
      fromRepoFlags p.keyHint p.repository p.repositoryFile p.passwordFile
        p.passwordCommand) ++
    plainRepoFlags s.keyHint s.repository s.repositoryFile s.passwordFile
      s.passwordCommand

/-- `GetCopyInitializeFlags`: absent when the profile has no copy section. -/
def GetCopyInitializeFlags (p : Profile) : Option Flags :=
  p.copy.map (fun s => s.getInitFlags p)

end InitCopy

/-! ## Issue tracker and generic sections

Modelled from the spec: §4.3 (one-shot disclosure) and §7 (SoftIssue: "a
generic section could not be parsed as a map ... recorded in the Issue
Tracker, resolution continues, the affected section is left nil"). -/

namespace Issues

/-- Per-resolution issue state (§3 `ResolutionIssues`). -/
structure ResolutionIssues where
  failedSection : List (String × String)
  changedPaths : List (String × List String)
deriving DecidableEq, Repr

/-- What one disclosure call reports. -/
structure IssueReport where
  failed : List (String × String)
  changed : List (String × List String)
deriving DecidableEq, Repr

/-- A generic (untyped) section: key/value passthrough. -/
structure GenericSection where
  otherFlags : List (String × FlagValue)
deriving DecidableEq, Repr

/-- The raw document value found under a section name: a scalar (a parse
error for a section) or a map. -/
inductive RawSectionValue where
  | scalarVal (v : ScalarValue)
  | mapVal (entries : List (String × FlagValue))
deriving DecidableEq, Repr

/-- Lookup of a section value in the profile's raw body. -/
def lookupSectionValue : List (String × RawSectionValue) → String →
    Option RawSectionValue
  | [], _ => none
  | (k0, v) :: rest, k => if k0 = k then some v else lookupSectionValue rest k

/-- The SoftIssue message recorded for a scalar-valued generic section
(`TestFillGenericSections/ParseError`). -/
def parseErrorMessage : String :=
  "cannot parse section: expected a map, got a scalar"

/-- Modelled from the spec: fill every known generic command name from the
raw profile body. A name absent from the document maps to `nil`; a map value
populates the section; a scalar value records a SoftIssue keyed by the
section name, leaves the section `nil`, and resolution continues with the
remaining sections. -/
def fillGenericSections (raw : List (String × RawSectionValue)) :
    List String → ResolutionIssues →
    List (String × Option GenericSection) × ResolutionIssues
  | [], iss => ([], iss)
  | name :: rest, iss =>
    match lookupSectionValue raw name with
    | none =>
      let r := fillGenericSections raw rest iss
      ((name, none) :: r.1, r.2)
    | some (.mapVal entries) =>
      let r := fillGenericSections raw rest iss
      ((name, some ⟨entries⟩) :: r.1, r.2)
    | some (.scalarVal _) =>
      let r := fillGenericSections raw rest
        { iss with failedSection := iss.failedSection ++ [(name, parseErrorMessage)] }
      ((name, none) :: r.1, r.2)

/-- `DisplayConfigurationIssues` (§4.3): reports the contents of both maps
and empties them. -/
def DisplayConfigurationIssues (iss : ResolutionIssues) :
    IssueReport × ResolutionIssues :=
  (⟨iss.failedSection, iss.changedPaths⟩, ⟨[], []⟩)

/-- The empty report: a disclosure call that reports nothing. -/
def emptyReport : IssueReport := ⟨[], []⟩

end Issues

end Resticprofile

/-! ## Theorems -/

open Resticprofile

/-- Helper: `fillGenericSections` produces exactly one entry per known
generic command name, in order, whatever the issue state. -/
theorem fillGeneric_keys (raw : List (String × Issues.RawSectionValue))
    (ks : List String) (iss : Issues.ResolutionIssues) :
    ((Issues.fillGenericSections raw ks iss).1).map Prod.fst = ks := by
  induction ks generalizing iss with
  | nil => simp [Issues.fillGenericSections]
  | cons name rest ih =>
    unfold Issues.fillGenericSections
    rcases hv : Issues.lookupSectionValue raw name with _ | v
    · simp [hv, ih]
    · cases v with
      | scalarVal s => simp [hv, ih]
      | mapVal entries => simp [hv, ih]

/-- Helper: `fillGenericSections` never drops issues already recorded. -/
theorem fillGeneric_mono (raw : List (String × Issues.RawSectionValue))
    (ks : List String) (iss : Issues.ResolutionIssues)
    (pr : String × String) (h : pr ∈ iss.failedSection) :
    pr ∈ ((Issues.fillGenericSections raw ks iss).2).failedSection := by
  induction ks generalizing iss with
  | nil => simpa [Issues.fillGenericSections] using h
  | cons name rest ih =>
    unfold Issues.fillGenericSections
    rcases hv : Issues.lookupSectionValue raw name with _ | v
    · exact ih iss h
    · cases v with
      | scalarVal s => exact ih _ (by simp [h])
      | mapVal entries => exact ih iss h

/-- Helper: a scalar-valued generic section records a SoftIssue keyed by the
section name. -/
theorem fillGeneric_records (raw : List (String × Issues.RawSectionValue))
    (ks : List String) (iss : Issues.ResolutionIssues)
    (name : String) (v : ScalarValue)
    (hmem : name ∈ ks)
    (hv : Issues.lookupSectionValue raw name = some (.scalarVal v)) :
    (name, Issues.parseErrorMessage) ∈
      ((Issues.fillGenericSections raw ks iss).2).failedSection := by
  induction ks generalizing iss with
  | nil => simp at hmem
  | cons k rest ih =>
    rcases List.mem_cons.mp hmem with heq | htail
    · subst heq
      unfold Issues.fillGenericSections
      rw [hv]
      exact fillGeneric_mono raw rest _ _ (by simp)
    · unfold Issues.fillGenericSections
      rcases hv2 : Issues.lookupSectionValue raw k with _ | v2
      · exact ih iss htail
      · cases v2 with
        | scalarVal s => exact ih _ htail
        | mapVal entries => exact ih iss htail

/-- Helper: the scalar-valued generic section itself is left `nil`. -/
theorem fillGeneric_nil_section (raw : List (String × Issues.RawSectionValue))
    (ks : List String) (iss : Issues.ResolutionIssues)
    (name : String) (v : ScalarValue)
    (hmem : name ∈ ks)
    (hv : Issues.lookupSectionValue raw name = some (.scalarVal v)) :
    (name, (none : Option Issues.GenericSection)) ∈
      ((Issues.fillGenericSections raw ks iss).1) := by
  induction ks generalizing iss with
  | nil => simp at hmem
  | cons k rest ih =>
    rcases List.mem_cons.mp hmem with heq | htail
    · subst heq
      unfold Issues.fillGenericSections
      rw [hv]
      simp
    · unfold Issues.fillGenericSections
      rcases hv2 : Issues.lookupSectionValue raw k with _ | v2
      · simp [ih iss htail]
      · cases v2 with
        | scalarVal s => simp [ih _ htail]
        | mapVal entries => simp [ih iss htail]

/-- Helper: a map-valued generic section is populated even when another
section failed. -/
theorem fillGeneric_maps (raw : List (String × Issues.RawSectionValue))
    (ks : List String) (iss : Issues.ResolutionIssues)
    (name : String) (entries : List (String × FlagValue))
    (hmem : name ∈ ks)
    (hv : Issues.lookupSectionValue raw name = some (.mapVal entries)) :
    (name, some (⟨entries⟩ : Issues.GenericSection)) ∈
      ((Issues.fillGenericSections raw ks iss).1) := by
  induction ks generalizing iss with
  | nil => simp at hmem
  | cons k rest ih =>
    rcases List.mem_cons.mp hmem with heq | htail
    · subst heq
      unfold Issues.fillGenericSections
      rw [hv]
      simp
    · unfold Issues.fillGenericSections
      rcases hv2 : Issues.lookupSectionValue raw k with _ | v2
      · simp [ih iss htail]
      · cases v2 with
        | scalarVal s => simp [ih _ htail]
        | mapVal entries2 => simp [ih iss htail]

/-- Claim C1: in an inheritance chain where the most distant ancestor assigns
a list value to an OtherFlags key, a descendant declares the key with a
trailing marker (`key...`) and a further descendant with a leading marker
(`...key`), resolving the leaf yields for that key the list
[leaf-prepended value, ancestor base value, middle-appended value], with
accumulation applied ancestor-first. -/
theorem claim1_inheritance_append_prepend (k x y z : String)
    (h1 : Config.classifyKey k = (.set, k))
    (h2 : Config.classifyKey (k ++ "...") = (.append, k))
    (h3 : Config.classifyKey ("..." ++ k) = (.prepend, k)) :
    Config.getProfile 3
      [("grand-parent", ⟨none, [(k, .list [.str x])]⟩),
       ("parent", ⟨some "grand-parent", [(k ++ "...", .scalar (.str y))]⟩),
       ("profile", ⟨some "parent", [("..." ++ k, .scalar (.str z))]⟩)]
      "profile" =
    .ok (some ⟨"profile", [(k, .list [.str z, .str x, .str y])]⟩) := by
  simp [Config.getProfile, Config.lookupRaw, Config.mergeAssigns,
    Config.applyAssign, h1, h2, h3, Config.setVal, Config.lookupVal,
    Config.valueList]

/-- Witness for C1, mirroring `TestInheritanceAppendToList`: the
`run-before` chain resolves to ["profile", "grand-parent", "parent"]. -/
theorem claim1_inheritance_append_prepend_witness :
    Config.getProfile 3
      [("grand-parent", ⟨none, [("run-before", .list [.str "grand-parent"])]⟩),
       ("parent", ⟨some "grand-parent",
          [("run-before" ++ "...", .scalar (.str "parent"))]⟩),
       ("profile", ⟨some "parent",
          [("..." ++ "run-before", .scalar (.str "profile"))]⟩)]
      "profile" =
    .ok (some ⟨"profile",
      [("run-before", .list [.str "profile", .str "grand-parent", .str "parent"])]⟩) :=
  claim1_inheritance_append_prepend "run-before" "grand-parent" "parent" "profile"
    (by decide) (by decide) (by decide)

/-- Claim C2: resolving the same profile any number of times on the same
loaded configuration instance is deterministic and side-effect-free — every
repetition returns the same resolved profile and byte-identical flag set
(hence no cumulative growth of list-valued keys), and the configuration
state is unchanged. -/
theorem claim2_repeated_resolution_deterministic
    (c : Config.LoadedConfig) (key : String) (n : Nat) :
    Config.resolveRepeat n c key =
      List.replicate n ((Config.resolveOnce c key).1) ∧
    (Config.resolveOnce c key).2 = c := by
  refine ⟨?_, rfl⟩
  induction n with
  | zero => rfl
  | succ m ih =>
    simp only [Config.resolveRepeat, List.replicate]
    exact congrArg (List.cons _) ih

/-- Claim C7: for every document and profile key absent from it, resolution
returns the NotFound condition — in config.go the nil-profile/nil-error
return of `getProfile` (here `.ok none`), surfaced by the resolver wrapper
as the distinguished `notFound` signal — and no profile value. -/
theorem claim7_not_found (doc : Config.Doc) (key : String) (fuel : Nat)
    (habsent : Config.lookupRaw doc key = none) :
    Config.getProfile (fuel + 1) doc key = .ok none ∧
    Config.resolveProfile doc key = .error .notFound := by
  constructor
  · simp [Config.getProfile, habsent]
  · simp [Config.resolveProfile, Config.getProfile, habsent]

/-- Witness for C7, mirroring `TestProfileNotFound`: requesting `other` from
a document declaring only `profile`. -/
theorem claim7_not_found_witness :
    Config.getProfile (0 + 1) [("profile", ⟨none, []⟩)] "other" = .ok none ∧
    Config.resolveProfile [("profile", ⟨none, []⟩)] "other" = .error .notFound :=
  claim7_not_found [("profile", ⟨none, []⟩)] "other" 0 (by decide)

/-- Claim C9: every successfully resolved profile carries as `Name` the
originally requested profile key, including when the profile is built by
re-applying its body onto a fully-resolved parent — the parent's name
never leaks into the child. -/
theorem claim9_name_invariant (fuel : Nat) (doc : Config.Doc) (key : String)
    (p : Config.Profile) (h : Config.getProfile fuel doc key = .ok (some p)) :
    p.name = key := by
  cases fuel with
  | zero => simp [Config.getProfile] at h
  | succ f =>
    unfold Config.getProfile at h
    split at h
    · simp at h
    · split at h
      · simp at h
        subst h
        rfl
      · split at h
        · simp at h
        · simp at h
        · simp at h
          subst h
          rfl

/-- Witness for C9: a child inheriting from `parent` resolves with
`Name = "child"`, not the parent's name. -/
theorem claim9_name_invariant_witness :
    Config.getProfile 2
        [("parent", ⟨none, [("a", .scalar (.int 1))]⟩),
         ("child", ⟨some "parent", []⟩)] "child" =
      .ok (some ⟨"child", [("a", .scalar (.int 1))]⟩) ∧
    (⟨"child", [("a", .scalar (.int 1))]⟩ : Config.Profile).name = "child" :=
  ⟨by rfl,
   claim9_name_invariant 2
     [("parent", ⟨none, [("a", .scalar (.int 1))]⟩),
      ("child", ⟨some "parent", []⟩)] "child"
     ⟨"child", [("a", .scalar (.int 1))]⟩ (by rfl)⟩

/-- Claim C10: on a non-windows OS (without the signal-propagation script)
`getShellCommand` returns the `sh` executable with exactly the two arguments
`-c` and the command followed by all arguments joined by single spaces, so
argument boundaries are not preserved (an argument containing a space is
indistinguishable from two arguments); on windows each argument is passed
individually to `cmd.exe /C`, with surrounding single or double quotes
stripped only from arguments that both start and end with the same quote
character. -/
theorem claim10_shell_command :
    (∀ (command : String) (args : List String),
      Shell.getShellCommand .unix command args false =
        ("sh", ["-c", String.intercalate " " (command :: args)])) ∧
    (∀ (command a b : String),
      Shell.getShellCommand .unix command [a ++ " " ++ b] false =
        Shell.getShellCommand .unix command [a, b] false) ∧
    (∀ (command : String) (args : List String) (propagate : Bool),
      Shell.getShellCommand .windows command args propagate =
        ("cmd.exe", "/C" :: command :: Shell.removeQuotes args)) ∧
    (∀ a : String,
      Shell.removeQuotesOne a =
        if Shell.startsWithChar a '"' && Shell.endsWithChar a '"' then
          Shell.trimChar a '"'
        else if Shell.startsWithChar a '\x27' && Shell.endsWithChar a '\x27' then
          Shell.trimChar a '\x27'
        else a) := by
  refine ⟨fun _ _ => rfl, ?_, fun _ _ _ => rfl, fun _ => rfl⟩
  intro command a b
  simp [Shell.getShellCommand, String.intercalate, String.intercalate.go,
    String.append_assoc]

/-- Claim C3: flag emission by GetCommonFlags follows the suppression table —
boolean true gives a presence-only flag, boolean false nothing, a non-empty
string the string, the empty string nothing, a zero number nothing, a
non-zero integer its decimal form, a non-zero float its shortest round-trip
decimal form, an empty list nothing, and a non-empty list one value per
element in original order. -/
theorem claim3_flag_suppression_table (nm key : String) (s : String) (i : Int)
    (q : ℚ) (vs : List ScalarValue)
    (hs : s ≠ "") (hi : i ≠ 0) (hq : q ≠ 0) (hvs : vs ≠ []) :
    (getFlag (Config.getCommonFlags ⟨nm, [(key, .scalar (.bool true))]⟩) key = some []) ∧
    (getFlag (Config.getCommonFlags ⟨nm, [(key, .scalar (.bool false))]⟩) key = none) ∧
    (getFlag (Config.getCommonFlags ⟨nm, [(key, .scalar (.str s))]⟩) key = some [s]) ∧
    (getFlag (Config.getCommonFlags ⟨nm, [(key, .scalar (.str ""))]⟩) key = none) ∧
    (getFlag (Config.getCommonFlags ⟨nm, [(key, .scalar (.int i))]⟩) key = some [intDecimal i]) ∧
    (getFlag (Config.getCommonFlags ⟨nm, [(key, .scalar (.int 0))]⟩) key = none) ∧
    (getFlag (Config.getCommonFlags ⟨nm, [(key, .scalar (.float q))]⟩) key = some [ratDecimal q]) ∧
    (getFlag (Config.getCommonFlags ⟨nm, [(key, .scalar (.float 0))]⟩) key = none) ∧
    (getFlag (Config.getCommonFlags ⟨nm, [(key, .list vs)]⟩) key = some (vs.map scalarString)) ∧
    (getFlag (Config.getCommonFlags ⟨nm, [(key, .list [])]⟩) key = none) := by
  refine ⟨?_, ?_, ?_, ?_, ?_, ?_, ?_, ?_, ?_, ?_⟩ <;>
    simp [Config.getCommonFlags, addArgsFromMap, argValueToStrings,
      getFlag, toMap, setFlag, findIn, hs, hi, hq, hvs]

/-- Witness for C3, mirroring `TestProfileOtherFlags`: the float flag `4.2`
emits its shortest round-trip decimal form `"4.2"`. -/
theorem claim3_flag_suppression_table_witness :
    getFlag (Config.getCommonFlags
      ⟨"profile", [("float", .scalar (.float (mkRat 21 5)))]⟩) "float" =
      some ["4.2"] := by
  have h := (claim3_flag_suppression_table "profile" "float" "test" 42
    (mkRat 21 5) [ScalarValue.str "one", ScalarValue.str "two"]
    (by decide) (by decide) (by decide) (by decide)).2.2.2.2.2.2.1
  exact h.trans (by decide)

/-- Claim C4: for a profile with retention and backup sections, an unset or
`true` retention `path` copies the backup section's resolved source list
under every schema version, `path = false` suppresses the flag, a literal
`path` list is root-path-normalized and emitted verbatim; `tag` follows the
same policy sourced from the backup tag list, except that an unset `tag` is
only copied under schema version 2+ while an explicit `tag = true` forces
the copy under both versions. -/
theorem claim4_retention_path_tag (ver ver2 : Nat) (root : String)
    (src tags l : List String)
    (hsrc : src ≠ []) (htags : tags ≠ []) (hl : l ≠ []) (hver2 : 2 ≤ ver2) :
    (getFlag (Retention.GetRetentionFlags
      ⟨ver, root, src, tags, ⟨.unset, .boolean false, []⟩⟩) "path" = some src) ∧
    (getFlag (Retention.GetRetentionFlags
      ⟨ver, root, src, tags, ⟨.boolean true, .boolean false, []⟩⟩) "path" = some src) ∧
    (getFlag (Retention.GetRetentionFlags
      ⟨ver, root, src, tags, ⟨.boolean false, .boolean false, []⟩⟩) "path" = none) ∧
    (getFlag (Retention.GetRetentionFlags
      ⟨ver, root, src, tags, ⟨.literals l, .boolean false, []⟩⟩) "path" =
        some (l.map (Retention.normalizePath root))) ∧
    (getFlag (Retention.GetRetentionFlags
      ⟨1, root, src, tags, ⟨.unset, .unset, []⟩⟩) "tag" = none) ∧
    (getFlag (Retention.GetRetentionFlags
      ⟨ver2, root, src, tags, ⟨.unset, .unset, []⟩⟩) "tag" = some tags) ∧
    (getFlag (Retention.GetRetentionFlags
      ⟨1, root, src, tags, ⟨.unset, .boolean true, []⟩⟩) "tag" = some tags) ∧
    (getFlag (Retention.GetRetentionFlags
      ⟨ver, root, src, tags, ⟨.unset, .boolean true, []⟩⟩) "tag" = some tags) ∧
    (getFlag (Retention.GetRetentionFlags
      ⟨ver, root, src, tags, ⟨.unset, .boolean false, []⟩⟩) "tag" = none) ∧
    (getFlag (Retention.GetRetentionFlags
      ⟨ver, root, src, tags, ⟨.unset, .literals l, []⟩⟩) "tag" = some l) := by
  refine ⟨?_, ?_, ?_, ?_, ?_, ?_, ?_, ?_, ?_, ?_⟩ <;>
    simp [Retention.GetRetentionFlags, addArgsFromMap, getFlag, toMap,
      setFlag, findIn, hsrc, htags, hl, hver2]

/-- Witness for C4, mirroring the spec example: retention with no explicit
`path` and backup source `["/a", "/b"]` yields `path = ["/a", "/b"]`. -/
theorem claim4_retention_path_tag_witness :
    getFlag (Retention.GetRetentionFlags
      ⟨1, "/cwd", ["/a", "/b"], ["one", "two"], ⟨.unset, .boolean false, []⟩⟩)
      "path" = some ["/a", "/b"] :=
  (claim4_retention_path_tag 1 2 "/cwd" ["/a", "/b"] ["one", "two"]
    ["relative/custom/path", "."]
    (by decide) (by decide) (by decide) (by decide)).1

/-- Claim C6: for every section in the fixed host-supporting set, `host =
true` with no `SetHost` call emits a `host` flag with an empty value list;
after `SetHost(h)` it emits `[h]`; a literal host string is emitted
unconditionally and `SetHost` has no effect on it; an absent or `false`
`host` suppresses the flag. -/
theorem claim6_host_override (cmd h lit : String)
    (hmem : cmd ∈ Host.hostSupportedSections)
    (hh : h ≠ "") (hlit : lit ≠ "") :
    (getFlag (Host.GetCommandFlags
      ⟨[], [(cmd, ⟨[("host", .scalar (.bool true))]⟩)]⟩ cmd) "host" = some []) ∧
    (getFlag (Host.GetCommandFlags
      (Host.SetHost ⟨[], [(cmd, ⟨[("host", .scalar (.bool true))]⟩)]⟩ h) cmd)
      "host" = some [h]) ∧
    (getFlag (Host.GetCommandFlags
      ⟨[], [(cmd, ⟨[("host", .scalar (.str lit))]⟩)]⟩ cmd) "host" = some [lit]) ∧
    (getFlag (Host.GetCommandFlags
      (Host.SetHost ⟨[], [(cmd, ⟨[("host", .scalar (.str lit))]⟩)]⟩ h) cmd)
      "host" = some [lit]) ∧
    (getFlag (Host.GetCommandFlags ⟨[], [(cmd, ⟨[]⟩)]⟩ cmd) "host" = none) ∧
    (getFlag (Host.GetCommandFlags
      ⟨[], [(cmd, ⟨[("host", .scalar (.bool false))]⟩)]⟩ cmd) "host" = none) := by
  refine ⟨?_, ?_, ?_, ?_, ?_, ?_⟩ <;>
    simp [Host.GetCommandFlags, Host.SetHost, Host.setHostInFlags,
      Host.lookupSection, addArgsFromMap, argValueToStrings, getFlag, toMap,
      setFlag, findIn, hmem, hh, hlit]

/-- Witness for C6, mirroring `TestHostInProfile`: `host = true` in the
backup section emits `["TestHost"]` after `SetHost("TestHost")`. -/
theorem claim6_host_override_witness :
    getFlag (Host.GetCommandFlags
      (Host.SetHost ⟨[], [("backup", ⟨[("host", .scalar (.bool true))]⟩)]⟩
        "TestHost") "backup") "host" = some ["TestHost"] :=
  (claim6_host_override "backup" "TestHost" "ConfigHost"
    (by decide) (by decide) (by decide)).2.1

/-- Counterexample to claim C5 as stated: at effective tool version 14 the
copy command's `from-`-prefixed repository flag carries the owning profile's
(source) repository, not the copy section's destination repository field —
the destination emits under the plain `repo` name instead. -/
theorem claim5_version_gated_naming_counterexample :
    getFlag (InitCopy.CopySection.getCommandFlags
      ⟨"dest-key-hint", "dest-repo", "dest-repo-file", "dest-pw-file",
       "dest-pw-command", []⟩
      ⟨14, "src-key-hint", "src-repo", "src-repo-file", "src-pw-file",
       "src-pw-command", [], none⟩) "from-repo" = some ["src-repo"] ∧
    ¬ getFlag (InitCopy.CopySection.getCommandFlags
      ⟨"dest-key-hint", "dest-repo", "dest-repo-file", "dest-pw-file",
       "dest-pw-command", []⟩
      ⟨14, "src-key-hint", "src-repo", "src-repo-file", "src-pw-file",
       "src-pw-command", [], none⟩) "from-repo" = some ["dest-repo"] ∧
    getFlag (InitCopy.CopySection.getCommandFlags
      ⟨"dest-key-hint", "dest-repo", "dest-repo-file", "dest-pw-file",
       "dest-pw-command", []⟩
      ⟨14, "src-key-hint", "src-repo", "src-repo-file", "src-pw-file",
       "src-pw-command", [], none⟩) "repo" = some ["dest-repo"] := by
  refine ⟨by decide, by decide, by decide⟩

/-- Claim C5 (amended): below effective tool version 14, the Init section's
initializer fields and the copy command's destination fields emit under the
legacy suffixed names (`key-hint2`, `repo2`, `repository-file2`,
`password-file2`, `password-command2`); at or above version 14 the Init
section's same fields emit under the `from-`-prefixed names, while for the
copy command the `from-`-prefixed names carry the owning profile's source
fields and the destination fields emit under the plain names;
`getInitFlags` keeps the source under the gated names under both versions
and always adds a presence-only `copy-chunker-params` flag; and
`GetCopyInitializeFlags` on a profile with no Copy section returns an
absent result. -/
theorem claim5_version_gated_naming_amended (ver ver14 : Nat)
    (i1 i2 i3 i4 i5 p1 p2 p3 p4 p5 c1 c2 c3 c4 c5 : String)
    (initS : InitCopy.InitSection) (cpy : InitCopy.CopySection)
    (pOld pNew pNoCopy : InitCopy.Profile)
    (hinit : initS = ⟨i1, i2, i3, i4, i5, []⟩)
    (hcpy : cpy = ⟨c1, c2, c3, c4, c5, []⟩)
    (hpOld : pOld = ⟨ver, p1, p2, p3, p4, p5, [], some cpy⟩)
    (hpNew : pNew = ⟨ver14, p1, p2, p3, p4, p5, [], some cpy⟩)
    (hpNoCopy : pNoCopy = ⟨ver, p1, p2, p3, p4, p5, [], none⟩)
    (hver : ver < 14) (hver14 : 14 ≤ ver14)
    (hi1 : i1 ≠ "") (hi2 : i2 ≠ "") (hi3 : i3 ≠ "") (hi4 : i4 ≠ "")
    (hi5 : i5 ≠ "") (hp1 : p1 ≠ "") (hp2 : p2 ≠ "") (hp3 : p3 ≠ "")
    (hp4 : p4 ≠ "") (hp5 : p5 ≠ "") (hc1 : c1 ≠ "") (hc2 : c2 ≠ "")
    (hc3 : c3 ≠ "") (hc4 : c4 ≠ "") (hc5 : c5 ≠ "") :
    (getFlag (initS.getCommandFlags pOld) "key-hint2" = some [i1]) ∧
    (getFlag (initS.getCommandFlags pOld) "repo2" = some [i2]) ∧
    (getFlag (initS.getCommandFlags pOld) "repository-file2" = some [i3]) ∧
    (getFlag (initS.getCommandFlags pOld) "password-file2" = some [i4]) ∧
    (getFlag (initS.getCommandFlags pOld) "password-command2" = some [i5]) ∧
    (getFlag (initS.getCommandFlags pOld) "from-repo" = none) ∧
    (getFlag (initS.getCommandFlags pNew) "from-key-hint" = some [i1]) ∧
    (getFlag (initS.getCommandFlags pNew) "from-repo" = some [i2]) ∧
    (getFlag (initS.getCommandFlags pNew) "from-repository-file" = some [i3]) ∧
    (getFlag (initS.getCommandFlags pNew) "from-password-file" = some [i4]) ∧
    (getFlag (initS.getCommandFlags pNew) "from-password-command" = some [i5]) ∧
    (getFlag (initS.getCommandFlags pNew) "repo2" = none) ∧
    (getFlag (cpy.getCommandFlags pOld) "key-hint2" = some [c1]) ∧
    (getFlag (cpy.getCommandFlags pOld) "repo2" = some [c2]) ∧
    (getFlag (cpy.getCommandFlags pOld) "repo" = some [p2]) ∧
    (getFlag (cpy.getCommandFlags pNew) "from-key-hint" = some [p1]) ∧
    (getFlag (cpy.getCommandFlags pNew) "from-repo" = some [p2]) ∧
    (getFlag (cpy.getCommandFlags pNew) "repo" = some [c2]) ∧
    (getFlag (cpy.getCommandFlags pNew) "repo2" = none) ∧
    (getFlag (cpy.getInitFlags pOld) "repo2" = some [p2]) ∧
    (getFlag (cpy.getInitFlags pOld) "repo" = some [c2]) ∧
    (getFlag (cpy.getInitFlags pNew) "from-repo" = some [p2]) ∧
    (getFlag (cpy.getInitFlags pNew) "repo" = some [c2]) ∧
    (getFlag (cpy.getInitFlags pOld) "copy-chunker-params" = some []) ∧
    (getFlag (cpy.getInitFlags pNew) "copy-chunker-params" = some []) ∧
    (InitCopy.GetCopyInitializeFlags pNoCopy = none) := by
  subst hinit hcpy hpOld hpNew hpNoCopy
  have hv2 : ¬ ver14 < 14 := by omega
  refine ⟨?_, ?_, ?_, ?_, ?_, ?_, ?_, ?_, ?_, ?_, ?_, ?_, ?_, ?_, ?_, ?_,
    ?_, ?_, ?_, ?_, ?_, ?_, ?_, ?_, ?_, ?_⟩ <;>
    simp [InitCopy.InitSection.getCommandFlags,
      InitCopy.CopySection.getCommandFlags, InitCopy.CopySection.getInitFlags,
      InitCopy.GetCopyInitializeFlags, InitCopy.legacyRepoFlags,
      InitCopy.fromRepoFlags, InitCopy.plainRepoFlags, InitCopy.strFlag,
      addArgsFromMap, getFlag, toMap, setFlag, findIn, hver, hv2,
      hi1, hi2, hi3, hi4, hi5, hp1, hp2, hp3, hp4, hp5, hc1, hc2, hc3, hc4, hc5]

/-- Witness for the amended C5, mirroring `TestGetInitStructFields` for
restic below 14: the init section's repository emits as `repo2`. -/
theorem claim5_version_gated_naming_witness :
    getFlag (InitCopy.InitSection.getCommandFlags
      ⟨"key-hint", "repo", "repo-file", "pw-file", "pw-command", []⟩
      ⟨13, "src-key-hint", "src-repo", "src-repo-file", "src-pw-file",
       "src-pw-command", [],
       some ⟨"dest-key-hint", "dest-repo", "dest-repo-file", "dest-pw-file",
             "dest-pw-command", []⟩⟩) "repo2" = some ["repo"] :=
  (claim5_version_gated_naming_amended 13 14
    "key-hint" "repo" "repo-file" "pw-file" "pw-command"
    "src-key-hint" "src-repo" "src-repo-file" "src-pw-file" "src-pw-command"
    "dest-key-hint" "dest-repo" "dest-repo-file" "dest-pw-file"
    "dest-pw-command" _ _ _ _ _ rfl rfl rfl rfl rfl
    (by decide) (by decide) (by decide) (by decide) (by decide) (by decide)
    (by decide) (by decide) (by decide) (by decide) (by decide) (by decide)
    (by decide) (by decide) (by decide) (by decide) (by decide)).2.1

/-- Claim C8: a generic section whose document value is a scalar is recorded
as a SoftIssue keyed by the section name, the section is left nil, the rest
of the profile keeps resolving (every known generic command still gets its
entry, and map-valued sections are still populated); the first
`DisplayConfigurationIssues` call empties both the failed-section and the
changed-paths maps, and a second disclosure with no new issues reports
nothing. -/
theorem claim8_soft_issue_one_shot_disclosure
    (raw : List (String × Issues.RawSectionValue))
    (ks : List String) (iss : Issues.ResolutionIssues)
    (name other : String) (v : ScalarValue)
    (entries : List (String × FlagValue))
    (hname : name ∈ ks)
    (hv : Issues.lookupSectionValue raw name = some (.scalarVal v))
    (hother : other ∈ ks)
    (hent : Issues.lookupSectionValue raw other = some (.mapVal entries)) :
    ((name, Issues.parseErrorMessage) ∈
      ((Issues.fillGenericSections raw ks iss).2).failedSection) ∧
    ((name, (none : Option Issues.GenericSection)) ∈
      (Issues.fillGenericSections raw ks iss).1) ∧
    (((Issues.fillGenericSections raw ks iss).1).map Prod.fst = ks) ∧
    ((other, some (⟨entries⟩ : Issues.GenericSection)) ∈
      (Issues.fillGenericSections raw ks iss).1) ∧
    ((Issues.DisplayConfigurationIssues
      (Issues.fillGenericSections raw ks iss).2).2 = ⟨[], []⟩) ∧
    ((Issues.DisplayConfigurationIssues
      (Issues.DisplayConfigurationIssues
        (Issues.fillGenericSections raw ks iss).2).2).1 = Issues.emptyReport) :=
  ⟨fillGeneric_records raw ks iss name v hname hv,
   fillGeneric_nil_section raw ks iss name v hname hv,
   fillGeneric_keys raw ks iss,
   fillGeneric_maps raw ks iss other entries hother hent,
   rfl, rfl⟩

/-- Witness for C8, mirroring `TestFillGenericSections/ParseError`: an `ls`
section declared as a scalar records a SoftIssue keyed by `ls`. -/
theorem claim8_soft_issue_one_shot_disclosure_witness :
    ("ls", Issues.parseErrorMessage) ∈
      ((Issues.fillGenericSections
        [("ls", .scalarVal (.str "value")),
         ("find", .mapVal [("long", .scalar (.bool true))])]
        ["ls", "find"] ⟨[], []⟩).2).failedSection :=
  (claim8_soft_issue_one_shot_disclosure
    [("ls", .scalarVal (.str "value")),
     ("find", .mapVal [("long", .scalar (.bool true))])]
    ["ls", "find"] ⟨[], []⟩ "ls" "find" (.str "value")
    [("long", .scalar (.bool true))]
    (by decide) (by decide) (by decide) (by decide)).1
